import Mathlib

/-!
Shallow embedding of the fledgling app's observation-scoring and ranking
core, together with proofs about the claims of its design specification.

Sources embedded here:
* src/utils/bird-scoring.ts - calculateBirdLikelihood and its subscores;
* the hotspots screen - QUALITY_LEVELS, applyFilters, calculateDistance,
  getHotspotQuality;
* the birds screen - the radius auto-expansion logic in loadBirds and the
  effect that resets the expansion flag when the search radius changes.

Modelling conventions: JS numbers are idealized as real numbers (rationals
where the source only ever produces rationals), Date.getTime() values are
integer milliseconds, and the fallible distance computation returns an
Option.  JS Array.prototype.sort is a stable sort whose output is ordered
by the comparator; it is modelled by List.mergeSort on the corresponding
Boolean "comes no later than" relation.
-/

namespace Fledgling

/-- The howMany field of an observation: a number, the sentinel letter X
(present but uncounted), or missing. -/
inductive HowMany where
  | num (n : ℚ)
  | X
  | missing
deriving DecidableEq, Repr, Inhabited

/-- One raw observation record, restricted to the fields the scoring
pipeline reads.  obsDt is the sighting timestamp in integer milliseconds,
the value of new Date(obs.obsDt).getTime() in the source. -/
structure BirdObservation where
  speciesCode : String
  comName : String
  obsDt : ℤ
  howMany : HowMany
deriving DecidableEq, Repr, Inhabited

/-- bird-scoring.ts lines 24-26 and 65-67: a numeric howMany is used as is,
the sentinel X counts as 25, anything else as 1. -/
def resolveCount : HowMany → ℚ
  | .num n => n
  | .X => 25
  | .missing => 1

/-- Total bird count over the records of one species (the reduce on
bird-scoring.ts lines 24-28 and 69). -/
def totalVolume (observations : List BirdObservation) : ℚ :=
  (observations.map (fun o => resolveCount o.howMany)).sum

/-- One step of the grouping loop of bird-scoring.ts lines 11-15: a JS Map
keeps keys in first-insertion order, and a repeated key appends the record
to its existing group. -/
def insertObs (acc : List (String × List BirdObservation)) (bird : BirdObservation) :
    List (String × List BirdObservation) :=
  if acc.any (fun g => g.1 == bird.speciesCode) then
    acc.map (fun g => if g.1 = bird.speciesCode then (g.1, g.2 ++ [bird]) else g)
  else
    acc ++ [(bird.speciesCode, [bird])]

/-- The speciesMap of bird-scoring.ts lines 11-15, as an ordered
association list. -/
def groupBySpecies (birds : List BirdObservation) :
    List (String × List BirdObservation) :=
  birds.foldl insertObs []

/-- bird-scoring.ts lines 18-22: the largest number of records of any
single species. -/
def maxSightings (groups : List (String × List BirdObservation)) : ℕ :=
  groups.foldl (fun m g => max m g.2.length) 0

/-- bird-scoring.ts lines 19-31: the largest total volume of any single
species. -/
def maxVolume (groups : List (String × List BirdObservation)) : ℚ :=
  groups.foldl (fun m g => max m (totalVolume g.2)) 0

/-- Frequency subscore, bird-scoring.ts line 39. -/
def frequencyScore (numObs maxS : ℕ) : ℚ :=
  ((numObs : ℚ) / (maxS : ℚ)) * 50

/-- Per-record decay value exp(-0.1 * daysAgo), bird-scoring.ts
lines 43-47. -/
noncomputable def decayValue (now obsDt : ℤ) : ℝ :=
  Real.exp (-0.1 * (((now - obsDt : ℤ) : ℝ) / (1000 * 60 * 60 * 24)))

/-- The forEach accumulation of bird-scoring.ts lines 51-58, with the
element index made explicit: returns (weightedRecencySum, weightSum) for
weights 0.8 ^ index. -/
noncomputable def recencyAccum : List ℝ → ℕ → ℝ × ℝ
  | [], _ => (0, 0)
  | s :: rest, index =>
    let weight : ℝ := (0.8 : ℝ) ^ index
    let tail := recencyAccum rest (index + 1)
    (s * weight + tail.1, weight + tail.2)

/-- Recency subscore, bird-scoring.ts lines 43-61: decay values sorted
descending, then a weighted average with geometrically decreasing weights,
times 30. -/
noncomputable def recencyScore (now : ℤ) (observations : List BirdObservation) : ℝ :=
  let recencyScores :=
    (observations.map (fun o => decayValue now o.obsDt)).mergeSort
      (fun a b => decide (b ≤ a))
  let sums := recencyAccum recencyScores 0
  (sums.1 / sums.2) * 30

/-- Volume subscore, bird-scoring.ts lines 63-70. -/
def volumeScore (tv maxV : ℚ) : ℚ :=
  min 1 (tv / (maxV * 0.7)) * 20

/-- The comparator of a JS Array.prototype.sort call with no argument: the
elements are converted to strings and the strings are compared by code
units.  For integers of magnitude below 1e21 (every timestamp here) the JS
string form is plain decimal, matching Int.repr, and code-unit order on
these ASCII strings is the character-list order used here (String order in
Lean is defined as exactly this order on the underlying data). -/
def jsDefaultLE (a b : ℤ) : Bool := a.repr.data ≤ b.repr.data

/-- Consistency subscore, bird-scoring.ts lines 72-85, applied to the
getTime values of the observations.  Note the source sorts the numeric
dates with a no-argument sort, i.e. by their decimal string forms. -/
def consistencyScore (dates : List ℤ) : ℚ :=
  let sorted := dates.mergeSort jsDefaultLE
  if 1 < dates.length then
    let dateRangeInDays : ℚ :=
      ((sorted.getLastD 0 - sorted.headD 0 : ℤ) : ℚ) / (1000 * 60 * 60 * 24)
    if 0 < dateRangeInDays then
      min 10 (((dates.length : ℚ) / dateRangeInDays) * 5)
    else 0
  else 0

/-- Likelihood of one species group given the batch-wide normalization
constants: the weighted sum of the four subscores, rounded, capped at 99
(bird-scoring.ts lines 37-91). -/
noncomputable def likelihoodOf (now : ℤ) (maxS : ℕ) (maxV : ℚ)
    (observations : List BirdObservation) : ℤ :=
  let freq := frequencyScore observations.length maxS
  let recency := recencyScore now observations
  let vol := volumeScore (totalVolume observations) maxV
  let consistency := consistencyScore (observations.map (fun o => o.obsDt))
  min 99 (round ((freq : ℝ) + recency + (vol : ℝ) + (consistency : ℝ)))

/-- A scored species: the first observation encountered for the species
plus its computed likelihood. -/
structure ScoredBird where
  bird : BirdObservation
  likelihood : ℤ
deriving DecidableEq, Repr

/-- bird-scoring.ts lines 7-101: group by species, compute per-species
likelihoods against the batch-wide maxima, and sort the scored list by
likelihood descending. -/
noncomputable def calculateBirdLikelihood (now : ℤ) (birds : List BirdObservation) :
    List ScoredBird :=
  let speciesMap := groupBySpecies birds
  let maxS := maxSightings speciesMap
  let maxV := maxVolume speciesMap
  let scoredBirds := speciesMap.map (fun g =>
    ScoredBird.mk g.2.headI (likelihoodOf now maxS maxV g.2))
  scoredBirds.mergeSort (fun a b => decide (b.likelihood ≤ a.likelihood))

/-- The search origin (the device location). -/
structure Location where
  latitude : ℝ
  longitude : ℝ

/-- A hotspot, restricted to the fields the hotspots screen reads. -/
structure Hotspot where
  locId : String
  locName : String
  latitude : ℝ
  longitude : ℝ
  numSpeciesAllTime : Option ℕ

/-- A quality badge as built by getHotspotQuality: display label and badge
color. -/
structure HotspotQuality where
  label : String
  color : String
deriving DecidableEq, Repr

/-- getHotspotQuality from the hotspots screen: the JS guard
(!speciesCount) returns null both for an undefined count and for a count
of exactly 0; otherwise strictly-greater-than breakpoints pick the tier. -/
def getHotspotQuality : Option ℕ → Option HotspotQuality
  | none => none
  | some n =>
    if n = 0 then none
    else if 200 < n then some ⟨"Exceptional", "#2D8B4F"⟩
    else if 100 < n then some ⟨"Excellent", "#4CAF50"⟩
    else if 50 < n then some ⟨"Very Good", "#8BC34A"⟩
    else if 25 < n then some ⟨"Good", "#CDDC39"⟩
    else some ⟨"Moderate", "#FFC107"⟩

/-- One quality-filter level of the hotspots screen. -/
structure QualityLevel where
  label : String
  minSpecies : ℕ
deriving DecidableEq, Repr

/-- The QUALITY_LEVELS constant of the hotspots screen. -/
def QUALITY_LEVELS : List QualityLevel :=
  [⟨"All", 0⟩, ⟨"Moderate", 25⟩, ⟨"Good", 50⟩, ⟨"Very Good", 100⟩,
    ⟨"Excellent", 200⟩]

/-- The quality-filter predicate of applyFilters:
(hotspot.numSpeciesAllTime || 0) >= qualityFilter.minSpecies. -/
def passesQualityFilter (minSpecies : ℕ) (h : Hotspot) : Bool :=
  minSpecies ≤ h.numSpeciesAllTime.getD 0

/-- JS Math.atan2. -/
noncomputable def atan2 (y x : ℝ) : ℝ :=
  if 0 < x then Real.arctan (y / x)
  else if x < 0 then
    (if 0 ≤ y then Real.arctan (y / x) + Real.pi
     else Real.arctan (y / x) - Real.pi)
  else
    (if 0 < y then Real.pi / 2 else if y < 0 then -(Real.pi / 2) else 0)

/-- The unrounded haversine great-circle distance in miles computed inside
calculateDistance on the hotspots screen. -/
noncomputable def haversineMiles (lat1 lon1 lat2 lon2 : ℝ) : ℝ :=
  let R : ℝ := 3958.8
  let dLat := (lat2 - lat1) * Real.pi / 180
  let dLon := (lon2 - lon1) * Real.pi / 180
  let a := Real.sin (dLat / 2) * Real.sin (dLat / 2) +
    Real.cos (lat1 * Real.pi / 180) * Real.cos (lat2 * Real.pi / 180) *
    Real.sin (dLon / 2) * Real.sin (dLon / 2)
  let c := 2 * atan2 (Real.sqrt a) (Real.sqrt (1 - a))
  R * c

/-- Number.prototype.toFixed(1) followed by parseFloat: the value rounded
to one decimal place (the distances rounded here are nonnegative, so
JS round-half-away-from-zero agrees with round-half-up). -/
noncomputable def toFixed1 (x : ℝ) : ℝ := (round (x * 10) : ℤ) / 10

/-- calculateDistance from the hotspots screen: null when any coordinate is
falsy (the number 0), otherwise the haversine distance rounded to one
decimal place.  The source returns the rounded value as a string; every
consumer either displays it or parses it back with parseFloat, so the
composition is modelled directly as the rounded number. -/
noncomputable def calculateDistance (lat1 lon1 lat2 lon2 : ℝ) : Option ℝ :=
  if lat1 = 0 ∨ lon1 = 0 ∨ lat2 = 0 ∨ lon2 = 0 then none
  else some (toFixed1 (haversineMiles lat1 lon1 lat2 lon2))

/-- The sort criterion of the hotspots screen. -/
inductive SortValue where
  | quality
  | distance
  | name
deriving DecidableEq, Repr

/-- The sort direction of the hotspots screen. -/
inductive SortDirection where
  | asc
  | desc
deriving DecidableEq, Repr

/-- The value a hotspot contributes to the distance sort:
aDist ? parseFloat(aDist) : 9999 in applyFilters. -/
noncomputable def hotspotDistanceValue (loc : Location) (h : Hotspot) : ℝ :=
  match calculateDistance loc.latitude loc.longitude h.latitude h.longitude with
  | none => 9999
  | some d => d

/-- The comparator of the hotspot sort in applyFilters, expressed as the
"comes no later than" Boolean relation fed to the stable sort (the JS
comparator returns aKey - bKey or bKey - aKey on the same keys; a name
sort via localeCompare is idealized to code-unit order). -/
noncomputable def hotspotLE (sv : SortValue) (dir : SortDirection) (loc : Location)
    (a b : Hotspot) : Bool :=
  match sv with
  | .quality =>
    let aQuality := a.numSpeciesAllTime.getD 0
    let bQuality := b.numSpeciesAllTime.getD 0
    match dir with
    | .desc => bQuality ≤ aQuality
    | .asc => aQuality ≤ bQuality
  | .distance =>
    let aValue := hotspotDistanceValue loc a
    let bValue := hotspotDistanceValue loc b
    match dir with
    | .asc => decide (aValue ≤ bValue)
    | .desc => decide (bValue ≤ aValue)
  | .name =>
    match dir with
    | .asc => a.locName ≤ b.locName
    | .desc => b.locName ≤ a.locName

/-- applyFilters of the hotspots screen: empty guard, filter by minimum
species count, stable sort by the active criterion, then truncate to the
limit if one is set. -/
noncomputable def applyFilters (loc : Location) (minSpecies : ℕ)
    (sv : SortValue) (dir : SortDirection) (limit : Option ℕ)
    (hotspots : List Hotspot) : List Hotspot :=
  if hotspots.isEmpty then []
  else
    let filtered := hotspots.filter (passesQualityFilter minSpecies)
    let sorted := filtered.mergeSort (hotspotLE sv dir loc)
    match limit with
    | none => sorted
    | some n => sorted.take n

/-- The session state the radius-expansion logic reads and writes:
searchRadius from the birds store (default 5) and the hasAutoExpanded
flag of the birds screen. -/
structure BirdSession where
  searchRadius : ℕ
  hasAutoExpanded : Bool
deriving DecidableEq, Repr

/-- setSearchRadius together with the birds-screen effect keyed on
searchRadius that sets hasAutoExpanded back to false; React re-runs that
effect exactly when the stored radius value actually changes, whether the
change was manual or came from the auto-expansion itself. -/
def setSearchRadiusWithEffect (radius : ℕ) (s : BirdSession) : BirdSession :=
  if radius = s.searchRadius then s else ⟨radius, false⟩

/-- The radius-expansion logic of loadBirds on the birds screen: if a
search returns zero scored birds at radius 5 with shouldAutoExpand set and
the flag not yet consumed, set the flag, move the radius to 10 (which
re-runs the flag-resetting effect) and re-search once at 10 with
shouldAutoExpand disabled.  results gives the number of scored birds a
search at a given radius returns; the function returns the settled session
state and how many expanded re-searches were triggered. -/
def loadBirdsModel (results : ℕ → ℕ) (radius : ℕ) (shouldAutoExpand : Bool)
    (s : BirdSession) : BirdSession × ℕ :=
  if h : results radius = 0 ∧ radius = 5 ∧ shouldAutoExpand = true ∧
      s.hasAutoExpanded = false then
    let s1 : BirdSession := ⟨s.searchRadius, true⟩
    let s2 := setSearchRadiusWithEffect 10 s1
    let inner := loadBirdsModel results 10 false s2
    (inner.1, inner.2 + 1)
  else (s, 0)
termination_by (if shouldAutoExpand then 1 else 0)
decreasing_by simp [h.2.2.1]

/-- Modelled from the spec, section 4.3 item 4, for comparison with the
source's consistencyScore: the date range in days between the true
earliest and the true latest sighting timestamp, with the same guard and
the same min(10, (recordCount / dateRangeDays) * 5) formula. -/
def consistencySpec (dates : List ℤ) : ℚ :=
  if 1 < dates.length then
    let sorted := dates.mergeSort (fun a b => decide (a ≤ b))
    let range : ℚ :=
      ((sorted.getLastD 0 - sorted.headD 0 : ℤ) : ℚ) / (1000 * 60 * 60 * 24)
    if 0 < range then min 10 (((dates.length : ℚ) / range) * 5) else 0
  else 0

/-- Well-formedness of a count field per the data model (section 3 of the
spec): a numeric count is a positive integer, so at least 1; the sentinel
and a missing count are always well formed. -/
def wfCount : HowMany → Bool
  | .num n => decide (1 ≤ n)
  | .X => true
  | .missing => true

/-- Concrete reference instant used by the concrete batches below
(2023-11-14T22:13:20Z in milliseconds). -/
def cexNow : ℤ := 1700000000000

/-- Concrete observation of species AAA at the reference instant. -/
def obsA : BirdObservation := ⟨"AAA", "Species A", 1700000000000, .num 1⟩

/-- Concrete observation of species BBB at the reference instant. -/
def obsB1 : BirdObservation := ⟨"BBB", "Species B", 1700000000000, .num 1⟩

/-- Concrete observation of species BBB exactly one day earlier. -/
def obsB2 : BirdObservation := ⟨"BBB", "Species B", 1699913600000, .num 1⟩

/-- Concrete uncounted observation of species CCC at the reference
instant. -/
def obsC : BirdObservation := ⟨"CCC", "Species C", 1700000000000, .X⟩

/-- Concrete batch: three AAA sightings today, two BBB sightings on two
consecutive days, ten uncounted CCC sightings today. -/
def cexBatch : List BirdObservation :=
  [obsA, obsA, obsA, obsB1, obsB2] ++ List.replicate 10 obsC

/-- The AAA group of cexBatch. -/
def cexGroupA : List BirdObservation := [obsA, obsA, obsA]

/-- The BBB group of cexBatch. -/
def cexGroupB : List BirdObservation := [obsB1, obsB2]

/-- Concrete observation used by simple witnesses. -/
def sampleObs : BirdObservation := ⟨"amecro", "American Crow", 0, .num 2⟩

/-- Concrete observation of species BBB used by the monotonicity
witness. -/
def wObsB : BirdObservation := ⟨"BBB", "Species B", 0, .num 1⟩

/-- Concrete observation of species AAA used by the monotonicity
witness. -/
def wObsA : BirdObservation := ⟨"AAA", "Species A", 0, .num 1⟩

/-- Concrete search origin away from the prime meridian and equator. -/
def distOrigin : Location := ⟨40, 10⟩

/-- Hotspot 0.001 degrees of latitude north of distOrigin: unrounded
distance about 0.0691 miles. -/
def hNear : Hotspot := ⟨"L1", "Near", 40.001, 10, some 50⟩

/-- Hotspot 0.0012 degrees of latitude north of distOrigin: unrounded
distance about 0.0829 miles. -/
def hFar : Hotspot := ⟨"L2", "Far", 40.0012, 10, some 50⟩

/-- Search origin close to the south pole. -/
def southOrigin : Location := ⟨-89, 50⟩

/-- Hotspot nearly antipodal to southOrigin: about 12299 miles away. -/
def hAntipodal : Hotspot := ⟨"L3", "Antipodal", 89, 50, some 50⟩

/-- Hotspot whose latitude is the falsy number 0, so its distance is
unknown. -/
def hZeroLat : Hotspot := ⟨"L4", "ZeroLat", 0, 50, some 50⟩

/-- Hotspot with falsy latitude used by the C7 witness. -/
def hZeroLat10 : Hotspot := ⟨"L6", "ZeroLatTen", 0, 10, some 50⟩

/-- Hotspot at exactly the distOrigin coordinates: distance 0.0. -/
def hSamePoint : Hotspot := ⟨"L5", "SamePoint", 40, 10, some 50⟩

/-- Hotspot with 30 all-time species: displayed with the Good badge but
excluded by the Good filter level. -/
def goodHotspot : Hotspot := ⟨"L7", "ThirtySpecies", 1, 1, some 30⟩

/-! Helper lemmas about the fold-based maxima. -/

theorem init_le_maxSightings_fold (groups : List (String × List BirdObservation))
    (init : ℕ) : init ≤ groups.foldl (fun m g => max m g.2.length) init := by
  induction groups generalizing init with
  | nil => simp
  | cons a t ih => exact le_trans (le_max_left _ _) (ih (max init a.2.length))

theorem length_le_maxSightings_fold {groups : List (String × List BirdObservation)}
    {p : String × List BirdObservation} (hp : p ∈ groups) (init : ℕ) :
    p.2.length ≤ groups.foldl (fun m g => max m g.2.length) init := by
  induction groups generalizing init with
  | nil => cases hp
  | cons a t ih =>
    rcases List.mem_cons.mp hp with h | h
    · subst h
      exact le_trans (le_max_right init _) (init_le_maxSightings_fold t _)
    · exact ih h (max init a.2.length)

theorem length_le_maxSightings {groups : List (String × List BirdObservation)}
    {p : String × List BirdObservation} (hp : p ∈ groups) :
    p.2.length ≤ maxSightings groups :=
  length_le_maxSightings_fold hp 0

theorem init_le_maxVolume_fold (groups : List (String × List BirdObservation))
    (init : ℚ) : init ≤ groups.foldl (fun m g => max m (totalVolume g.2)) init := by
  induction groups generalizing init with
  | nil => simp
  | cons a t ih => exact le_trans (le_max_left _ _) (ih (max init (totalVolume a.2)))

theorem totalVolume_le_maxVolume_fold {groups : List (String × List BirdObservation)}
    {p : String × List BirdObservation} (hp : p ∈ groups) (init : ℚ) :
    totalVolume p.2 ≤ groups.foldl (fun m g => max m (totalVolume g.2)) init := by
  induction groups generalizing init with
  | nil => cases hp
  | cons a t ih =>
    rcases List.mem_cons.mp hp with h | h
    · subst h
      exact le_trans (le_max_right init _) (init_le_maxVolume_fold t _)
    · exact ih h (max init (totalVolume a.2))

theorem totalVolume_le_maxVolume {groups : List (String × List BirdObservation)}
    {p : String × List BirdObservation} (hp : p ∈ groups) :
    totalVolume p.2 ≤ maxVolume groups :=
  totalVolume_le_maxVolume_fold hp 0

theorem maxVolume_nonneg (groups : List (String × List BirdObservation)) :
    0 ≤ maxVolume groups :=
  init_le_maxVolume_fold groups 0

/-! Helper lemmas about the grouping fold. -/

theorem insertObs_ne_nil (acc : List (String × List BirdObservation))
    (bird : BirdObservation) : insertObs acc bird ≠ [] := by
  unfold insertObs
  split
  · next h =>
    intro hmap
    rcases List.map_eq_nil_iff.mp hmap with rfl
    simp at h
  · simp

theorem foldl_insertObs_ne_nil (birds : List BirdObservation)
    (acc : List (String × List BirdObservation)) (h : acc ≠ []) :
    birds.foldl insertObs acc ≠ [] := by
  induction birds generalizing acc with
  | nil => exact h
  | cons b t ih => exact ih (insertObs acc b) (insertObs_ne_nil acc b)

theorem groupBySpecies_ne_nil {birds : List BirdObservation} (h : birds ≠ []) :
    groupBySpecies birds ≠ [] := by
  cases birds with
  | nil => exact absurd rfl h
  | cons b t => exact foldl_insertObs_ne_nil t (insertObs [] b) (insertObs_ne_nil [] b)

theorem insertObs_snd_ne_nil {acc : List (String × List BirdObservation)}
    {bird : BirdObservation} (h : ∀ p ∈ acc, p.2 ≠ []) :
    ∀ p ∈ insertObs acc bird, p.2 ≠ [] := by
  intro p hp
  unfold insertObs at hp
  split at hp
  · rcases List.mem_map.mp hp with ⟨q, hq, rfl⟩
    split
    · simp
    · exact h q hq
  · rcases List.mem_append.mp hp with hq | hq
    · exact h p hq
    · rcases List.mem_singleton.mp hq with rfl
      simp

theorem groups_snd_ne_nil {birds : List BirdObservation}
    {p : String × List BirdObservation} (hp : p ∈ groupBySpecies birds) :
    p.2 ≠ [] := by
  suffices h : ∀ (l : List BirdObservation) (acc : List (String × List BirdObservation)),
      (∀ q ∈ acc, q.2 ≠ []) → ∀ q ∈ l.foldl insertObs acc, q.2 ≠ [] by
    exact h birds [] (by simp) p hp
  intro l
  induction l with
  | nil => intro acc hacc q hq; exact hacc q hq
  | cons b t ih =>
    intro acc hacc q hq
    exact ih (insertObs acc b) (insertObs_snd_ne_nil hacc) q hq

theorem insertObs_snd_mem {acc : List (String × List BirdObservation)}
    {bird : BirdObservation} {p : String × List BirdObservation}
    {b : BirdObservation} (hp : p ∈ insertObs acc bird) (hb : b ∈ p.2) :
    (∃ q ∈ acc, b ∈ q.2) ∨ b = bird := by
  unfold insertObs at hp
  split at hp
  · rcases List.mem_map.mp hp with ⟨q, hq, rfl⟩
    split at hb
    · rcases List.mem_append.mp hb with hbq | hbq
      · exact Or.inl ⟨q, hq, hbq⟩
      · exact Or.inr (List.mem_singleton.mp hbq)
    · exact Or.inl ⟨q, hq, hb⟩
  · rcases List.mem_append.mp hp with hq | hq
    · exact Or.inl ⟨p, hq, hb⟩
    · rcases List.mem_singleton.mp hq with rfl
      exact Or.inr (List.mem_singleton.mp hb)

theorem groups_snd_mem {birds : List BirdObservation}
    {p : String × List BirdObservation} {b : BirdObservation}
    (hp : p ∈ groupBySpecies birds) (hb : b ∈ p.2) : b ∈ birds := by
  suffices h : ∀ (l : List BirdObservation) (acc : List (String × List BirdObservation))
      (q : String × List BirdObservation), q ∈ l.foldl insertObs acc → ∀ x ∈ q.2,
      (∃ r ∈ acc, x ∈ r.2) ∨ x ∈ l by
    rcases h birds [] p hp b hb with ⟨r, hr, _⟩ | hmem
    · cases hr
    · exact hmem
  intro l
  induction l with
  | nil =>
    intro acc q hq x hx
    exact Or.inl ⟨q, hq, hx⟩
  | cons a t ih =>
    intro acc q hq x hx
    rcases ih (insertObs acc a) q hq x hx with ⟨r, hr, hxr⟩ | hmem
    · rcases insertObs_snd_mem hr hxr with ⟨s, hs, hxs⟩ | rfl
      · exact Or.inl ⟨s, hs, hxs⟩
      · exact Or.inr (List.mem_cons_self _ _)
    · exact Or.inr (List.mem_cons_of_mem _ hmem)

/-! Helper lemmas about the recency accumulation. -/

theorem recencyAccum_snd_nonneg (l : List ℝ) (i : ℕ) :
    0 ≤ (recencyAccum l i).2 := by
  induction l generalizing i with
  | nil => simp [recencyAccum]
  | cons s rest ih =>
    simp only [recencyAccum]
    have hw : (0 : ℝ) ≤ (0.8 : ℝ) ^ i := by positivity
    have := ih (i + 1)
    linarith

theorem recencyAccum_snd_pos (l : List ℝ) (i : ℕ) (h : l ≠ []) :
    0 < (recencyAccum l i).2 := by
  cases l with
  | nil => exact absurd rfl h
  | cons s rest =>
    simp only [recencyAccum]
    have hw : (0 : ℝ) < (0.8 : ℝ) ^ i := by positivity
    have := recencyAccum_snd_nonneg rest (i + 1)
    linarith

theorem recencyAccum_fst_nonneg (l : List ℝ) (i : ℕ) (h : ∀ x ∈ l, 0 ≤ x) :
    0 ≤ (recencyAccum l i).1 := by
  induction l generalizing i with
  | nil => simp [recencyAccum]
  | cons s rest ih =>
    simp only [recencyAccum]
    have hw : (0 : ℝ) ≤ (0.8 : ℝ) ^ i := by positivity
    have hs : 0 ≤ s := h s (List.mem_cons_self _ _)
    have ht := ih (i + 1) (fun x hx => h x (List.mem_cons_of_mem _ hx))
    nlinarith

theorem mul_recencyAccum_snd_le_fst (l : List ℝ) (i : ℕ) (c : ℝ)
    (h : ∀ x ∈ l, c ≤ x) :
    c * (recencyAccum l i).2 ≤ (recencyAccum l i).1 := by
  induction l generalizing i with
  | nil => simp [recencyAccum]
  | cons s rest ih =>
    simp only [recencyAccum]
    have hw : (0 : ℝ) ≤ (0.8 : ℝ) ^ i := by positivity
    have hs : c ≤ s := h s (List.mem_cons_self _ _)
    have ht := ih (i + 1) (fun x hx => h x (List.mem_cons_of_mem _ hx))
    nlinarith

theorem recencyAccum_fst_le_mul_snd (l : List ℝ) (i : ℕ) (c : ℝ)
    (h : ∀ x ∈ l, x ≤ c) :
    (recencyAccum l i).1 ≤ c * (recencyAccum l i).2 := by
  induction l generalizing i with
  | nil => simp [recencyAccum]
  | cons s rest ih =>
    simp only [recencyAccum]
    have hw : (0 : ℝ) ≤ (0.8 : ℝ) ^ i := by positivity
    have hs : s ≤ c := h s (List.mem_cons_self _ _)
    have ht := ih (i + 1) (fun x hx => h x (List.mem_cons_of_mem _ hx))
    nlinarith

/-- A nonempty list of reals has a maximal element. -/
theorem exists_mem_all_le (l : List ℝ) (h : l ≠ []) :
    ∃ m ∈ l, ∀ x ∈ l, x ≤ m := by
  induction l with
  | nil => exact absurd rfl h
  | cons a t ih =>
    cases t with
    | nil => exact ⟨a, by simp, by simp⟩
    | cons b u =>
      rcases ih (by simp) with ⟨m, hm, hmax⟩
      rcases le_total a m with hle | hle
      · exact ⟨m, List.mem_cons_of_mem _ hm, by
          intro x hx
          rcases List.mem_cons.mp hx with rfl | hx
          · exact hle
          · exact hmax x hx⟩
      · exact ⟨a, List.mem_cons_self _ _, by
          intro x hx
          rcases List.mem_cons.mp hx with rfl | hx
          · exact le_rfl
          · exact le_trans (hmax x hx) hle⟩

/-! Helper lemmas about the recency subscore. -/

theorem decayValue_pos (now t : ℤ) : 0 < decayValue now t :=
  Real.exp_pos _

theorem decayValue_mono (now : ℤ) {t1 t2 : ℤ} (h : t1 ≤ t2) :
    decayValue now t1 ≤ decayValue now t2 := by
  unfold decayValue
  rw [Real.exp_le_exp]
  have hcast : ((now - t2 : ℤ) : ℝ) ≤ ((now - t1 : ℤ) : ℝ) := by
    exact_mod_cast sub_le_sub_left h now
  nlinarith

theorem recencyScore_nonneg (now : ℤ) (observations : List BirdObservation) :
    0 ≤ recencyScore now observations := by
  unfold recencyScore
  dsimp only
  have h1 : 0 ≤ (recencyAccum ((observations.map (fun o => decayValue now o.obsDt)).mergeSort
      (fun a b => decide (b ≤ a))) 0).1 := by
    apply recencyAccum_fst_nonneg
    intro x hx
    rcases List.mem_map.mp (List.mem_mergeSort.mp hx) with ⟨o, _, rfl⟩
    exact (decayValue_pos now o.obsDt).le
  have h2 := recencyAccum_snd_nonneg ((observations.map (fun o => decayValue now o.obsDt)).mergeSort
      (fun a b => decide (b ≤ a))) 0
  positivity

theorem recencyScore_le_30 (now : ℤ) (observations : List BirdObservation)
    (h : ∀ o ∈ observations, o.obsDt ≤ now) :
    recencyScore now observations ≤ 30 := by
  unfold recencyScore
  dsimp only
  set L := (observations.map (fun o => decayValue now o.obsDt)).mergeSort
      (fun a b => decide (b ≤ a)) with hL
  have hone : ∀ x ∈ L, x ≤ 1 := by
    intro x hx
    rcases List.mem_map.mp (List.mem_mergeSort.mp hx) with ⟨o, ho, rfl⟩
    unfold decayValue
    rw [show (1 : ℝ) = Real.exp 0 by rw [Real.exp_zero]]
    rw [Real.exp_le_exp]
    have hcast : (0 : ℝ) ≤ ((now - o.obsDt : ℤ) : ℝ) := by
      exact_mod_cast sub_nonneg.mpr (h o ho)
    nlinarith
  rcases eq_or_ne L [] with hnil | hnil
  · rw [hnil]
    norm_num [recencyAccum]
  · have hpos := recencyAccum_snd_pos L 0 hnil
    have hle := recencyAccum_fst_le_mul_snd L 0 1 hone
    rw [one_mul] at hle
    have : (recencyAccum L 0).1 / (recencyAccum L 0).2 ≤ 1 :=
      (div_le_one hpos).mpr hle
    nlinarith

theorem recencyScore_mono (now : ℤ) (gA gB : List BirdObservation)
    (hA : gA ≠ [])
    (h : ∀ a ∈ gA, ∀ b ∈ gB, b.obsDt ≤ a.obsDt) :
    recencyScore now gB ≤ recencyScore now gA := by
  rcases eq_or_ne gB [] with rfl | hB
  · have : recencyScore now ([] : List BirdObservation) = 0 := by
      unfold recencyScore
      norm_num [recencyAccum]
    rw [this]
    exact recencyScore_nonneg now gA
  · unfold recencyScore
    dsimp only
    set LA := (gA.map (fun o => decayValue now o.obsDt)).mergeSort
        (fun a b => decide (b ≤ a)) with hLA
    set LB := (gB.map (fun o => decayValue now o.obsDt)).mergeSort
        (fun a b => decide (b ≤ a)) with hLB
    have hLAne : LA ≠ [] := by
      rw [hLA]
      intro hcontra
      have := (List.mergeSort_perm (gA.map (fun o => decayValue now o.obsDt))
        (fun a b => decide (b ≤ a))).symm.length_eq
      rw [hcontra] at this
      simp at this
      exact hA this
    have hLBne : LB ≠ [] := by
      rw [hLB]
      intro hcontra
      have := (List.mergeSort_perm (gB.map (fun o => decayValue now o.obsDt))
        (fun a b => decide (b ≤ a))).symm.length_eq
      rw [hcontra] at this
      simp at this
      exact hB this
    rcases exists_mem_all_le LB hLBne with ⟨c, hcmem, hcmax⟩
    rcases List.mem_map.mp (List.mem_mergeSort.mp hcmem) with ⟨bo, hbo, rfl⟩
    have hcA : ∀ x ∈ LA, decayValue now bo.obsDt ≤ x := by
      intro x hx
      rcases List.mem_map.mp (List.mem_mergeSort.mp hx) with ⟨ao, hao, rfl⟩
      exact decayValue_mono now (h ao hao bo hbo)
    have hWApos := recencyAccum_snd_pos LA 0 hLAne
    have hWBpos := recencyAccum_snd_pos LB 0 hLBne
    have havgB : (recencyAccum LB 0).1 / (recencyAccum LB 0).2 ≤ decayValue now bo.obsDt := by
      rw [div_le_iff₀ hWBpos]
      exact recencyAccum_fst_le_mul_snd LB 0 _ hcmax
    have havgA : decayValue now bo.obsDt ≤ (recencyAccum LA 0).1 / (recencyAccum LA 0).2 := by
      rw [le_div_iff₀ hWApos]
      exact mul_recencyAccum_snd_le_fst LA 0 _ hcA
    nlinarith

/-! Helper lemmas about the remaining subscores and the final rounding. -/

theorem one_le_resolveCount {hm : HowMany} (h : wfCount hm = true) :
    1 ≤ resolveCount hm := by
  cases hm with
  | num n =>
    simp only [wfCount, decide_eq_true_eq] at h
    simpa [resolveCount] using h
  | X => norm_num [resolveCount]
  | missing => norm_num [resolveCount]

theorem length_le_totalVolume {observations : List BirdObservation}
    (h : ∀ o ∈ observations, wfCount o.howMany = true) :
    (observations.length : ℚ) ≤ totalVolume observations := by
  induction observations with
  | nil => simp [totalVolume]
  | cons o t ih =>
    have h1 : 1 ≤ resolveCount o.howMany :=
      one_le_resolveCount (h o (List.mem_cons_self _ _))
    have h2 := ih (fun x hx => h x (List.mem_cons_of_mem _ hx))
    simp only [totalVolume, List.map_cons, List.sum_cons, List.length_cons] at *
    push_cast
    linarith

theorem totalVolume_nonneg {observations : List BirdObservation}
    (h : ∀ o ∈ observations, wfCount o.howMany = true) :
    0 ≤ totalVolume observations :=
  le_trans (by positivity) (length_le_totalVolume h)

theorem frequencyScore_nonneg (numObs maxS : ℕ) :
    0 ≤ frequencyScore numObs maxS := by
  unfold frequencyScore
  positivity

theorem frequencyScore_mono {n1 n2 : ℕ} (maxS : ℕ) (h : n1 ≤ n2) :
    frequencyScore n1 maxS ≤ frequencyScore n2 maxS := by
  unfold frequencyScore
  have : (n1 : ℚ) ≤ (n2 : ℚ) := by exact_mod_cast h
  have hS : (0 : ℚ) ≤ (maxS : ℚ) := by positivity
  gcongr

theorem volumeScore_nonneg {tv maxV : ℚ} (htv : 0 ≤ tv) (hV : 0 ≤ maxV) :
    0 ≤ volumeScore tv maxV := by
  unfold volumeScore
  have h1 : (0 : ℚ) ≤ tv / (maxV * 0.7) := by positivity
  have h2 : (0 : ℚ) ≤ min 1 (tv / (maxV * 0.7)) := le_min (by norm_num) h1
  linarith

theorem volumeScore_mono {tv1 tv2 maxV : ℚ} (hV : 0 < maxV) (h : tv1 ≤ tv2) :
    volumeScore tv1 maxV ≤ volumeScore tv2 maxV := by
  unfold volumeScore
  have hc : (0 : ℚ) < maxV * 0.7 := by positivity
  have hdiv : tv1 / (maxV * 0.7) ≤ tv2 / (maxV * 0.7) := by gcongr
  have hmin : min 1 (tv1 / (maxV * 0.7)) ≤ min 1 (tv2 / (maxV * 0.7)) :=
    min_le_min le_rfl hdiv
  linarith

theorem consistencyScore_nonneg (dates : List ℤ) :
    0 ≤ consistencyScore dates := by
  unfold consistencyScore
  dsimp only
  split
  · split
    · next hrange =>
      refine le_min (by norm_num) ?_
      have : (0 : ℚ) ≤ (dates.length : ℚ) := by positivity
      positivity
    · exact le_rfl
  · exact le_rfl

theorem consistencyScore_le_10 (dates : List ℤ) :
    consistencyScore dates ≤ 10 := by
  unfold consistencyScore
  dsimp only
  split
  · split
    · exact min_le_left _ _
    · norm_num
  · norm_num

theorem round_mono_of_le {x y : ℝ} (h : x ≤ y) : round x ≤ round y := by
  rw [round_eq, round_eq]
  exact Int.floor_le_floor (by linarith)

theorem round_nonneg_of_nonneg {x : ℝ} (h : 0 ≤ x) : 0 ≤ round x := by
  rw [round_eq]
  exact Int.le_floor.mpr (by push_cast; linarith)

/-! Helper lemmas about likelihoods and the final sort. -/

theorem likelihoodOf_le_99 (now : ℤ) (maxS : ℕ) (maxV : ℚ)
    (observations : List BirdObservation) :
    likelihoodOf now maxS maxV observations ≤ 99 :=
  min_le_left _ _

theorem likelihoodOf_nonneg (now : ℤ) (maxS : ℕ) (maxV : ℚ)
    {observations : List BirdObservation}
    (hwf : ∀ o ∈ observations, wfCount o.howMany = true)
    (hV : 0 ≤ maxV) :
    0 ≤ likelihoodOf now maxS maxV observations := by
  unfold likelihoodOf
  dsimp only
  refine le_min (by norm_num) (round_nonneg_of_nonneg ?_)
  have h1 := frequencyScore_nonneg observations.length maxS
  have h2 := recencyScore_nonneg now observations
  have h3 := volumeScore_nonneg (totalVolume_nonneg hwf) hV
  have h4 := consistencyScore_nonneg (observations.map (fun o => o.obsDt))
  have c1 : (0 : ℝ) ≤ (frequencyScore observations.length maxS : ℝ) := by
    exact_mod_cast h1
  have c3 : (0 : ℝ) ≤ (volumeScore (totalVolume observations) maxV : ℝ) := by
    exact_mod_cast h3
  have c4 : (0 : ℝ) ≤ ((consistencyScore (observations.map (fun o => o.obsDt))) : ℝ) := by
    exact_mod_cast h4
  linarith

/-- Evaluating the stable sort on a two-element list. -/
theorem mergeSort_pair {α : Type*} (a b : α) (le : α → α → Bool) :
    [a, b].mergeSort le = if le a b then [a, b] else [b, a] := by
  simp [List.mergeSort, List.merge]

/-- A list that is a permutation of a replicate is that replicate. -/
theorem eq_replicate_of_mergeSort_replicate {α : Type*} (a : α) (n : ℕ)
    (le : α → α → Bool) :
    (List.replicate n a).mergeSort le = List.replicate n a := by
  have hperm := List.mergeSort_perm (List.replicate n a) le
  refine List.eq_replicate_iff.mpr ⟨?_, ?_⟩
  · simp [hperm.length_eq]
  · intro x hx
    exact List.eq_of_mem_replicate (hperm.mem_iff.mp hx)

/-- Anything the hotspot pipeline outputs passed the quality filter. -/
theorem mem_applyFilters_passes {loc : Location} {minS : ℕ} {sv : SortValue}
    {dir : SortDirection} {lim : Option ℕ} {hs : List Hotspot} {h : Hotspot}
    (hmem : h ∈ applyFilters loc minS sv dir lim hs) :
    passesQualityFilter minS h = true := by
  unfold applyFilters at hmem
  split at hmem
  · cases hmem
  · have hmem' : h ∈ (hs.filter (passesQualityFilter minS)).mergeSort
        (hotspotLE sv dir loc) := by
      cases lim with
      | none => exact hmem
      | some n => exact List.mem_of_mem_take hmem
    exact (List.mem_filter.mp (List.mem_mergeSort.mp hmem')).2

/-- C10: for every input batch, the list returned by
calculateBirdLikelihood is already sorted by likelihood in descending
order, before any further ranking-pipeline sort is applied, so a caller
displaying the scorer's output directly sees a likelihood-descending
order. -/
theorem C10_scorer_output_sorted (now : ℤ) (birds : List BirdObservation) :
    List.Pairwise (fun a b : ScoredBird => b.likelihood ≤ a.likelihood)
      (calculateBirdLikelihood now birds) := by
  have h := @List.sorted_mergeSort ScoredBird
    (fun a b : ScoredBird => decide (b.likelihood ≤ a.likelihood))
    (fun a b c hab hbc => by
      simp only [decide_eq_true_eq] at *
      exact le_trans hbc hab)
    (fun a b => by
      simp only [Bool.or_eq_true, decide_eq_true_eq]
      exact le_total b.likelihood a.likelihood)
    ((groupBySpecies birds).map (fun g =>
      ScoredBird.mk g.2.headI
        (likelihoodOf now (maxSightings (groupBySpecies birds))
          (maxVolume (groupBySpecies birds)) g.2)))
  exact h.imp (fun hab => decide_eq_true_eq.mp hab)

/-- C4, counterexample: a present all-time species count of exactly 0 is
classified as no tier at all (the JS falsy guard), not as Moderate, so a
present value does not always get one of the five tiers. -/
theorem C4_counterexample :
    getHotspotQuality (some 0) = none ∧
    getHotspotQuality (some 0) ≠ some ⟨"Moderate", "#FFC107"⟩ := by
  constructor <;> decide

/-- C4, amended: with a present and nonzero count the classifier assigns
exactly one of the five tiers by strictly-greater-than breakpoints
(Exceptional above 200, Excellent in 101-200, Very Good in 51-100, Good in
26-50, Moderate in 1-25); an absent count or a count of zero yields no
tier; count 201 is Exceptional and count 200 is Excellent. -/
theorem C4_quality_tiers (n : ℕ) :
    getHotspotQuality none = none ∧
    (getHotspotQuality (some n) = none ↔ n = 0) ∧
    (getHotspotQuality (some n) = some ⟨"Exceptional", "#2D8B4F"⟩ ↔ 200 < n) ∧
    (getHotspotQuality (some n) = some ⟨"Excellent", "#4CAF50"⟩ ↔ 100 < n ∧ n ≤ 200) ∧
    (getHotspotQuality (some n) = some ⟨"Very Good", "#8BC34A"⟩ ↔ 50 < n ∧ n ≤ 100) ∧
    (getHotspotQuality (some n) = some ⟨"Good", "#CDDC39"⟩ ↔ 25 < n ∧ n ≤ 50) ∧
    (getHotspotQuality (some n) = some ⟨"Moderate", "#FFC107"⟩ ↔ 1 ≤ n ∧ n ≤ 25) ∧
    getHotspotQuality (some 201) = some ⟨"Exceptional", "#2D8B4F"⟩ ∧
    getHotspotQuality (some 200) = some ⟨"Excellent", "#4CAF50"⟩ := by
  refine ⟨rfl, ?_, ?_, ?_, ?_, ?_, ?_, by decide, by decide⟩ <;>
  · simp only [getHotspotQuality]
    split_ifs <;> simp_all <;> omega

/-- C6, counterexample: GeoDistance applied to the pair (0,0) and (0,0)
does not return 0.0 miles; the falsy-coordinate guard fires first and
the result is the unknown sentinel. -/
theorem C6_counterexample :
    calculateDistance 0 0 0 0 = none ∧ calculateDistance 0 0 0 0 ≠ some 0 := by
  constructor <;> simp [calculateDistance]

/-- C6, amended: whenever either input coordinate pair is (0,0) - the
(0,0) to (0,0) case included - calculateDistance returns the unknown
sentinel, per the documented falsy-zero simplification. -/
theorem C6_zero_pair_unknown (lat1 lon1 lat2 lon2 : ℝ)
    (h : (lat1 = 0 ∧ lon1 = 0) ∨ (lat2 = 0 ∧ lon2 = 0)) :
    calculateDistance lat1 lon1 lat2 lon2 = none := by
  unfold calculateDistance
  rcases h with ⟨h1, h2⟩ | ⟨h1, h2⟩ <;> simp [h1, h2]

/-- Witness for the amended C6 at the concrete pairs (0,0) and (5,5). -/
theorem C6_zero_pair_unknown_witness : calculateDistance 0 0 5 5 = none :=
  C6_zero_pair_unknown 0 0 5 5 (Or.inl ⟨rfl, rfl⟩)

/-- C2, code bug: on a species whose two timestamps have decimal forms of
different lengths, the source's no-argument numeric sort orders them as
strings, the computed date range is negative, and the consistency subscore
degenerates to 0, while the specified formula over the true earliest and
latest timestamps is positive. -/
theorem C2_code_divergence :
    consistencyScore [999999999999, 1100000000000] = 0 ∧
    0 < consistencySpec [999999999999, 1100000000000] := by
  have hsortCode : ([999999999999, 1100000000000] : List ℤ).mergeSort jsDefaultLE
      = [1100000000000, 999999999999] := by
    rw [mergeSort_pair]
    rw [show jsDefaultLE 999999999999 1100000000000 = false from by decide]
    simp
  have hsortSpec : ([999999999999, 1100000000000] : List ℤ).mergeSort
      (fun a b => decide (a ≤ b)) = [999999999999, 1100000000000] := by
    rw [mergeSort_pair]
    norm_num
  constructor
  · unfold consistencyScore
    rw [hsortCode]
    norm_num
  · unfold consistencySpec
    rw [hsortSpec]
    norm_num

/-- C5, counterexample: a zero-result search at the default radius does
trigger exactly one expansion to radius 10, but the consumed flag does not
stay set until a manual radius change: the automatic setSearchRadius(10)
re-runs the radius effect, which clears the flag with no user action. -/
theorem C5_counterexample :
    loadBirdsModel (fun _ => 0) 5 true ⟨5, false⟩ = (⟨10, false⟩, 1) ∧
    (loadBirdsModel (fun _ => 0) 5 true ⟨5, false⟩).1.hasAutoExpanded = false := by
  constructor <;>
    simp [loadBirdsModel, setSearchRadiusWithEffect]

/-- C5, amended: a zero-result search at the default radius 5 in the
not-expanded state triggers exactly one re-search at radius 10; a second
zero-result response after the expansion triggers no further expansion
(the radius is no longer the default, which is what blocks re-expansion);
and the consumed flag is reset by any actual change of the search radius,
the automatic expansion included, not only by a manual change. -/
theorem C5_expansion_once (results : ℕ → ℕ) (r : ℕ) (s : BirdSession)
    (h5 : results 5 = 0) (h10 : results 10 = 0) (hr : r ≠ s.searchRadius) :
    loadBirdsModel results 5 true ⟨5, false⟩ = (⟨10, false⟩, 1) ∧
    loadBirdsModel results 10 true ⟨10, false⟩ = (⟨10, false⟩, 0) ∧
    (setSearchRadiusWithEffect r s).hasAutoExpanded = false := by
  refine ⟨?_, ?_, ?_⟩
  · simp [loadBirdsModel, setSearchRadiusWithEffect, h5]
  · simp [loadBirdsModel, h10]
  · simp [setSearchRadiusWithEffect, hr]

/-- Witness for the amended C5: the all-zero results oracle and a manual
change from radius 5 to radius 7. -/
theorem C5_expansion_once_witness :
    loadBirdsModel (fun _ => 0) 5 true ⟨5, false⟩ = (⟨10, false⟩, 1) ∧
    loadBirdsModel (fun _ => 0) 10 true ⟨10, false⟩ = (⟨10, false⟩, 0) ∧
    (setSearchRadiusWithEffect 7 ⟨5, false⟩).hasAutoExpanded = false :=
  C5_expansion_once (fun _ => 0) 7 ⟨5, false⟩ rfl rfl (by decide)

/-- A hotspot failing the quality filter never appears in the pipeline
output. -/
theorem excluded_of_filter_false {loc : Location} {minS : ℕ} {sv : SortValue}
    {dir : SortDirection} {lim : Option ℕ} {hs : List Hotspot} {h : Hotspot}
    (hf : passesQualityFilter minS h = false) :
    h ∉ applyFilters loc minS sv dir lim hs := by
  intro hmem
  rw [mem_applyFilters_passes hmem] at hf
  cases hf

/-- C1: with well-formed records (numeric counts at least 1, per the data
model), every likelihood the scorer outputs is an integer between 0 and
99; for a nonempty batch both normalization maxima are positive, so the
divisions are sound (no NaN in the idealized arithmetic), and if either
maximum is zero the batch was empty and the scorer returns the empty
list. -/
theorem C1_likelihood_bounds (now : ℤ) (birds : List BirdObservation)
    (hwf : ∀ b ∈ birds, wfCount b.howMany = true) :
    (∀ s ∈ calculateBirdLikelihood now birds,
      0 ≤ s.likelihood ∧ s.likelihood ≤ 99) ∧
    (birds ≠ [] → 0 < maxSightings (groupBySpecies birds) ∧
      0 < maxVolume (groupBySpecies birds)) ∧
    ((maxSightings (groupBySpecies birds) = 0 ∨
        maxVolume (groupBySpecies birds) = 0) →
      calculateBirdLikelihood now birds = []) := by
  have hbounds : ∀ s ∈ calculateBirdLikelihood now birds,
      0 ≤ s.likelihood ∧ s.likelihood ≤ 99 := by
    intro s hs
    unfold calculateBirdLikelihood at hs
    rw [List.mem_mergeSort] at hs
    rcases List.mem_map.mp hs with ⟨g, hg, rfl⟩
    constructor
    · exact likelihoodOf_nonneg now _ _
        (fun o ho => hwf o (groups_snd_mem hg ho))
        (maxVolume_nonneg _)
    · exact likelihoodOf_le_99 now _ _ _
  have hpos : birds ≠ [] → 0 < maxSightings (groupBySpecies birds) ∧
      0 < maxVolume (groupBySpecies birds) := by
    intro hne
    rcases List.exists_mem_of_ne_nil _ (groupBySpecies_ne_nil hne) with ⟨p, hp⟩
    have hlen : 0 < p.2.length := List.length_pos.mpr (groups_snd_ne_nil hp)
    constructor
    · exact lt_of_lt_of_le hlen (length_le_maxSightings hp)
    · have h1 : (p.2.length : ℚ) ≤ totalVolume p.2 :=
        length_le_totalVolume (fun o ho => hwf o (groups_snd_mem hp ho))
      have h2 := totalVolume_le_maxVolume hp
      have h3 : (0 : ℚ) < (p.2.length : ℚ) := by exact_mod_cast hlen
      linarith
  refine ⟨hbounds, hpos, ?_⟩
  intro hor
  rcases eq_or_ne birds [] with rfl | hne
  · simp [calculateBirdLikelihood, groupBySpecies]
  · rcases hpos hne with ⟨h1, h2⟩
    rcases hor with h | h
    · omega
    · rw [h] at h2
      exact absurd h2 (lt_irrefl 0)

/-- Witness for C1 at a concrete one-record batch. -/
theorem C1_likelihood_bounds_witness :
    (∀ b ∈ [sampleObs], wfCount b.howMany = true) ∧
    (∀ s ∈ calculateBirdLikelihood 0 [sampleObs],
      0 ≤ s.likelihood ∧ s.likelihood ≤ 99) :=
  ⟨by decide, (C1_likelihood_bounds 0 [sampleObs] (by decide)).1⟩

/-- C9: the filter levels of the hotspots screen carry minimum-species
thresholds 0/25/50/100/200 that sit one tier above the classifier's
display breakpoints, so any hotspot whose present count lies strictly
between a label's classifier breakpoint and that same label's filter
threshold wears the label's badge yet is excluded when the user selects
the filter level of the same label. -/
theorem C9_filter_classifier_offset (loc : Location) (sv : SortValue)
    (dir : SortDirection) (lim : Option ℕ) (hs : List Hotspot)
    (h : Hotspot) (c : ℕ) (hc : h.numSpeciesAllTime = some c) :
    QUALITY_LEVELS.map (fun q => q.minSpecies) = [0, 25, 50, 100, 200] ∧
    (0 < c → c < 25 →
      getHotspotQuality h.numSpeciesAllTime = some ⟨"Moderate", "#FFC107"⟩ ∧
      passesQualityFilter 25 h = false ∧
      h ∉ applyFilters loc 25 sv dir lim hs) ∧
    (25 < c → c < 50 →
      getHotspotQuality h.numSpeciesAllTime = some ⟨"Good", "#CDDC39"⟩ ∧
      passesQualityFilter 50 h = false ∧
      h ∉ applyFilters loc 50 sv dir lim hs) ∧
    (50 < c → c < 100 →
      getHotspotQuality h.numSpeciesAllTime = some ⟨"Very Good", "#8BC34A"⟩ ∧
      passesQualityFilter 100 h = false ∧
      h ∉ applyFilters loc 100 sv dir lim hs) ∧
    (100 < c → c < 200 →
      getHotspotQuality h.numSpeciesAllTime = some ⟨"Excellent", "#4CAF50"⟩ ∧
      passesQualityFilter 200 h = false ∧
      h ∉ applyFilters loc 200 sv dir lim hs) := by
  have hclass : ∀ lo hi : ℕ, lo < c → c ≤ hi →
      passesQualityFilter (hi + 1) h = false := by
    intro lo hi hlo hhi
    unfold passesQualityFilter
    rw [hc]
    simp only [Option.getD_some, decide_eq_false_iff_not]
    omega
  refine ⟨by decide, ?_, ?_, ?_, ?_⟩ <;> intro h1 h2 <;>
    refine ⟨?_, ?_, ?_⟩
  · rw [hc]
    simp only [getHotspotQuality]
    rw [if_neg (by omega), if_neg (by omega), if_neg (by omega),
      if_neg (by omega), if_neg (by omega)]
  · exact hclass 0 24 h1 (by omega)
  · exact excluded_of_filter_false (hclass 0 24 h1 (by omega))
  · rw [hc]
    simp only [getHotspotQuality]
    rw [if_neg (by omega), if_neg (by omega), if_neg (by omega),
      if_neg (by omega), if_pos (by omega)]
  · exact hclass 25 49 h1 (by omega)
  · exact excluded_of_filter_false (hclass 25 49 h1 (by omega))
  · rw [hc]
    simp only [getHotspotQuality]
    rw [if_neg (by omega), if_neg (by omega), if_neg (by omega),
      if_pos (by omega)]
  · exact hclass 50 99 h1 (by omega)
  · exact excluded_of_filter_false (hclass 50 99 h1 (by omega))
  · rw [hc]
    simp only [getHotspotQuality]
    rw [if_neg (by omega), if_neg (by omega), if_pos (by omega)]
  · exact hclass 100 199 h1 (by omega)
  · exact excluded_of_filter_false (hclass 100 199 h1 (by omega))

/-- Witness for C9: a hotspot with 30 all-time species wears the Good
badge and is excluded by the Good filter level. -/
theorem C9_filter_classifier_offset_witness :
    getHotspotQuality goodHotspot.numSpeciesAllTime = some ⟨"Good", "#CDDC39"⟩ ∧
    passesQualityFilter 50 goodHotspot = false ∧
    goodHotspot ∉ applyFilters ⟨1, 1⟩ 50 .quality .desc none [goodHotspot] :=
  (C9_filter_classifier_offset ⟨1, 1⟩ .quality .desc none [goodHotspot]
    goodHotspot 30 rfl).2.2.1 (by decide) (by decide)

/-- C8, amended: within one batch, a species whose observations are
strictly more numerous, each at least as recent, and of strictly higher
total volume than another species scores at least as high, provided its
consistency subscore is also at least the other's (the consistency bonus
is the one factor that can reward the less numerous, less recent species,
as the counterexample shows). -/
theorem C8_dominance_with_consistency (now : ℤ) (birds : List BirdObservation)
    (codeA codeB : String) (gA gB : List BirdObservation)
    (hwf : ∀ b ∈ birds, wfCount b.howMany = true)
    (hA : (codeA, gA) ∈ groupBySpecies birds)
    (_hB : (codeB, gB) ∈ groupBySpecies birds)
    (hnum : gB.length < gA.length)
    (hrecent : ∀ a ∈ gA, ∀ b ∈ gB, b.obsDt ≤ a.obsDt)
    (hvol : totalVolume gB < totalVolume gA)
    (hcons : consistencyScore (gB.map (fun o => o.obsDt)) ≤
      consistencyScore (gA.map (fun o => o.obsDt))) :
    likelihoodOf now (maxSightings (groupBySpecies birds))
        (maxVolume (groupBySpecies birds)) gB ≤
      likelihoodOf now (maxSightings (groupBySpecies birds))
        (maxVolume (groupBySpecies birds)) gA := by
  set maxS := maxSightings (groupBySpecies birds) with hmaxS
  set maxV := maxVolume (groupBySpecies birds) with hmaxV
  have hAne : gA ≠ [] := by
    intro hnil
    rw [hnil] at hnum
    simp at hnum
  have hwfA : ∀ o ∈ gA, wfCount o.howMany = true :=
    fun o ho => hwf o (groups_snd_mem hA ho)
  have hVpos : 0 < maxV := by
    have h1 : (gA.length : ℚ) ≤ totalVolume gA := length_le_totalVolume hwfA
    have h2 : totalVolume gA ≤ maxV := totalVolume_le_maxVolume hA
    have h3 : (0 : ℚ) < (gA.length : ℚ) := by
      exact_mod_cast Nat.lt_of_le_of_lt (Nat.zero_le _) hnum
    linarith
  have hfreq : frequencyScore gB.length maxS ≤ frequencyScore gA.length maxS :=
    frequencyScore_mono maxS hnum.le
  have hrec : recencyScore now gB ≤ recencyScore now gA :=
    recencyScore_mono now gA gB hAne hrecent
  have hvolS : volumeScore (totalVolume gB) maxV ≤
      volumeScore (totalVolume gA) maxV :=
    volumeScore_mono hVpos hvol.le
  unfold likelihoodOf
  dsimp only
  refine min_le_min le_rfl (round_mono_of_le ?_)
  have c1 : ((frequencyScore gB.length maxS : ℚ) : ℝ) ≤
      ((frequencyScore gA.length maxS : ℚ) : ℝ) := by exact_mod_cast hfreq
  have c3 : ((volumeScore (totalVolume gB) maxV : ℚ) : ℝ) ≤
      ((volumeScore (totalVolume gA) maxV : ℚ) : ℝ) := by exact_mod_cast hvolS
  have c4 : ((consistencyScore (gB.map (fun o => o.obsDt)) : ℚ) : ℝ) ≤
      ((consistencyScore (gA.map (fun o => o.obsDt)) : ℚ) : ℝ) := by
    exact_mod_cast hcons
  linarith

/-- Witness for the amended C8 at a concrete three-record batch: species
AAA has two records, species BBB one, all at the same instant with count
1, so every hypothesis is checkable by computation. -/
theorem C8_dominance_with_consistency_witness :
    (∀ b ∈ [wObsA, wObsA, wObsB], wfCount b.howMany = true) ∧
    ("AAA", [wObsA, wObsA]) ∈ groupBySpecies [wObsA, wObsA, wObsB] ∧
    ("BBB", [wObsB]) ∈ groupBySpecies [wObsA, wObsA, wObsB] ∧
    [wObsB].length < [wObsA, wObsA].length ∧
    totalVolume [wObsB] < totalVolume [wObsA, wObsA] ∧
    likelihoodOf 0 (maxSightings (groupBySpecies [wObsA, wObsA, wObsB]))
        (maxVolume (groupBySpecies [wObsA, wObsA, wObsB])) [wObsB] ≤
      likelihoodOf 0 (maxSightings (groupBySpecies [wObsA, wObsA, wObsB]))
        (maxVolume (groupBySpecies [wObsA, wObsA, wObsB])) [wObsA, wObsA] := by
  have hvol : totalVolume [wObsB] < totalVolume [wObsA, wObsA] := by
    norm_num [totalVolume, resolveCount, wObsA, wObsB]
  have hsortPair : (([0, 0] : List ℤ)).mergeSort jsDefaultLE = [0, 0] := by
    rw [mergeSort_pair]
    rw [show jsDefaultLE 0 0 = true from by decide]
    simp
  have hcons : consistencyScore ([wObsB].map (fun o => o.obsDt)) ≤
      consistencyScore ([wObsA, wObsA].map (fun o => o.obsDt)) := by
    simp [wObsA, wObsB, consistencyScore, hsortPair]
  refine ⟨by decide, by decide, by decide, by decide, hvol, ?_⟩
  exact C8_dominance_with_consistency 0 [wObsA, wObsA, wObsB] "AAA" "BBB"
    [wObsA, wObsA] [wObsB] (by decide) (by decide) (by decide) (by decide)
    (by decide) hvol hcons

/-- C8, counterexample: in the concrete batch cexBatch, species AAA has
strictly more observations than BBB (3 against 2), each at least as
recent, and strictly higher total volume (3 against 2), yet AAA's computed
likelihood (45) is strictly below BBB's (at least 49): BBB's two-day
spread earns the full 10-point consistency bonus that AAA's single-day
cluster forfeits, and the ten-sighting species CCC keeps the frequency and
volume normalizers large enough that AAA's advantages are worth less than
that bonus. -/
theorem C8_counterexample :
    ("AAA", cexGroupA) ∈ groupBySpecies cexBatch ∧
    ("BBB", cexGroupB) ∈ groupBySpecies cexBatch ∧
    cexGroupB.length < cexGroupA.length ∧
    cexGroupB.all (fun b => cexGroupA.all (fun a => b.obsDt ≤ a.obsDt)) = true ∧
    totalVolume cexGroupB < totalVolume cexGroupA ∧
    maxSightings (groupBySpecies cexBatch) = 10 ∧
    maxVolume (groupBySpecies cexBatch) = 250 ∧
    ScoredBird.mk obsA (likelihoodOf cexNow 10 250 cexGroupA) ∈
      calculateBirdLikelihood cexNow cexBatch ∧
    likelihoodOf cexNow 10 250 cexGroupA < likelihoodOf cexNow 10 250 cexGroupB := by
  have hgroups : groupBySpecies cexBatch =
      [("AAA", cexGroupA), ("BBB", cexGroupB), ("CCC", List.replicate 10 obsC)] := by
    decide
  have htvA : totalVolume cexGroupA = 3 := by
    norm_num [totalVolume, resolveCount, cexGroupA, obsA]
  have htvB : totalVolume cexGroupB = 2 := by
    norm_num [totalVolume, resolveCount, cexGroupB, obsB1, obsB2]
  have htvC : totalVolume (List.replicate 10 obsC) = 250 := by
    norm_num [totalVolume, resolveCount, obsC, List.replicate]
  have hmaxS : maxSightings (groupBySpecies cexBatch) = 10 := by
    rw [hgroups]
    decide
  have hmaxV : maxVolume (groupBySpecies cexBatch) = 250 := by
    rw [hgroups]
    unfold maxVolume
    simp only [List.foldl_cons, List.foldl_nil, htvA, htvB, htvC]
    rw [max_eq_right (by norm_num : (0 : ℚ) ≤ 3),
      max_eq_left (by norm_num : (2 : ℚ) ≤ 3),
      max_eq_right (by norm_num : (3 : ℚ) ≤ 250)]
  -- the decay values of the two groups
  have hdToday : decayValue cexNow 1700000000000 = 1 := by
    unfold decayValue cexNow
    norm_num
  have hdYesterday : decayValue cexNow 1699913600000 = Real.exp (-0.1) := by
    unfold decayValue cexNow
    norm_num
  have hexpLow : (0.9 : ℝ) ≤ Real.exp (-0.1) := by
    have := Real.add_one_le_exp (-0.1 : ℝ)
    linarith
  have hexpHigh : Real.exp (-0.1) < 1 :=
    Real.exp_lt_one_iff.mpr (by norm_num)
  -- species AAA scores exactly 45
  have hrecA : recencyScore cexNow cexGroupA = 30 := by
    unfold recencyScore
    have hmap : cexGroupA.map (fun o => decayValue cexNow o.obsDt) =
        List.replicate 3 1 := by
      simp [cexGroupA, obsA, hdToday, List.replicate]
    rw [hmap, eq_replicate_of_mergeSort_replicate]
    simp only [List.replicate, recencyAccum]
    norm_num
  have hconsA : consistencyScore (cexGroupA.map (fun o => o.obsDt)) = 0 := by
    have hmap : cexGroupA.map (fun o => o.obsDt) =
        List.replicate 3 1700000000000 := by decide
    rw [hmap]
    unfold consistencyScore
    rw [eq_replicate_of_mergeSort_replicate]
    simp only [List.replicate]
    norm_num
  have hlikA : likelihoodOf cexNow 10 250 cexGroupA = 45 := by
    unfold likelihoodOf
    rw [hrecA, hconsA]
    have hfreq : frequencyScore cexGroupA.length 10 = 15 := by
      norm_num [frequencyScore, cexGroupA]
    have hvol : volumeScore (totalVolume cexGroupA) 250 = 12 / 35 := by
      rw [htvA]
      unfold volumeScore
      rw [min_eq_right (by norm_num : (3 : ℚ) / (250 * 0.7) ≤ 1)]
      norm_num
    rw [hfreq, hvol]
    have hround : round ((15 : ℝ) + 30 + ((12 / 35 : ℚ) : ℝ) + ((0 : ℚ) : ℝ)) = 45 := by
      rw [round_eq]
      apply Int.floor_eq_iff.mpr
      push_cast
      norm_num
    push_cast at hround ⊢
    rw [hround]
    norm_num
  -- species BBB scores at least 49
  have hsortB : ([1, Real.exp (-0.1)] : List ℝ).mergeSort
      (fun a b => decide (b ≤ a)) = [1, Real.exp (-0.1)] := by
    rw [mergeSort_pair]
    rw [decide_eq_true hexpHigh.le]
    simp
  have hrecB : recencyScore cexNow cexGroupB =
      (1 + Real.exp (-0.1) * (4 / 5)) * (50 / 3) := by
    unfold recencyScore
    have hmap : cexGroupB.map (fun o => decayValue cexNow o.obsDt) =
        [1, Real.exp (-0.1)] := by
      simp [cexGroupB, obsB1, obsB2, hdToday, hdYesterday]
    rw [hmap, hsortB]
    simp only [recencyAccum]
    norm_num
    ring
  have hconsB : consistencyScore (cexGroupB.map (fun o => o.obsDt)) = 10 := by
    have hmap : cexGroupB.map (fun o => o.obsDt) =
        [1700000000000, 1699913600000] := by decide
    rw [hmap]
    unfold consistencyScore
    rw [mergeSort_pair]
    rw [show jsDefaultLE 1700000000000 1699913600000 = false from by decide]
    norm_num
  have hlikB : 49 ≤ likelihoodOf cexNow 10 250 cexGroupB := by
    unfold likelihoodOf
    rw [hrecB, hconsB]
    have hfreq : frequencyScore cexGroupB.length 10 = 10 := by
      norm_num [frequencyScore, cexGroupB]
    have hvol : volumeScore (totalVolume cexGroupB) 250 = 8 / 35 := by
      rw [htvB]
      unfold volumeScore
      rw [min_eq_right (by norm_num : (2 : ℚ) / (250 * 0.7) ≤ 1)]
      norm_num
    rw [hfreq, hvol]
    refine le_min (by norm_num) ?_
    rw [round_eq]
    refine Int.le_floor.mpr ?_
    push_cast
    nlinarith [hexpLow, hexpHigh]
  refine ⟨by decide, by decide, by decide, by decide, ?_, hmaxS, hmaxV, ?_, ?_⟩
  · rw [htvA, htvB]
    norm_num
  · unfold calculateBirdLikelihood
    rw [List.mem_mergeSort]
    rw [hgroups] at hmaxS hmaxV ⊢
    rw [hmaxS, hmaxV]
    apply List.mem_map.mpr
    refine ⟨("AAA", cexGroupA), by simp, ?_⟩
    simp [cexGroupA]
  · rw [hlikA]
    omega

/-! Helper lemmas about the haversine distance. -/

/-- The rounded value always exceeds the argument minus a half. -/
theorem lt_round (x : ℝ) : x - 1 / 2 < (round x : ℝ) := by
  rw [round_eq]
  have h := Int.sub_one_lt_floor (x + 1 / 2)
  push_cast at h ⊢
  linarith

/-- Along a meridian the haversine chain collapses: for a latitude
difference of d degrees (0 ≤ d < 180) at equal longitudes, the distance is
the arc 3958.8 * (d * pi / 180), whatever the starting latitude. -/
theorem haversineMiles_meridian (lat lon d : ℝ) (h0 : 0 ≤ d) (h1 : d < 180) :
    haversineMiles lat lon (lat + d) lon = 3958.8 * (d * Real.pi / 180) := by
  have hπ := Real.pi_pos
  set θ := d * Real.pi / 360 with hθdef
  have hθ0 : 0 ≤ θ := by positivity
  have hθlt : θ < Real.pi / 2 := by
    rw [hθdef]
    nlinarith
  have hsin0 : 0 ≤ Real.sin θ :=
    Real.sin_nonneg_of_nonneg_of_le_pi hθ0 (by linarith)
  have hcos0 : 0 < Real.cos θ :=
    Real.cos_pos_of_mem_Ioo ⟨by linarith, hθlt⟩
  unfold haversineMiles
  dsimp only
  have hdLon : (lon - lon) * Real.pi / 180 = 0 := by ring
  have hdLat2 : (lat + d - lat) * Real.pi / 180 / 2 = θ := by
    rw [hθdef]; ring
  rw [hdLon, hdLat2]
  simp only [zero_div, Real.sin_zero, mul_zero, add_zero]
  have ha : Real.sin θ * Real.sin θ = Real.sin θ ^ 2 := by ring
  rw [ha, Real.sqrt_sq hsin0]
  have hb : 1 - Real.sin θ ^ 2 = Real.cos θ ^ 2 := by
    have := Real.cos_sq' θ
    linarith
  rw [hb, Real.sqrt_sq hcos0.le]
  unfold atan2
  rw [if_pos hcos0, ← Real.tan_eq_sin_div_cos,
    Real.arctan_tan (by linarith) hθlt]
  rw [hθdef]
  ring

/-- The coordinates used below are never the falsy 0, so calculateDistance
takes the rounding branch. -/
theorem calculateDistance_of_ne_zero {lat1 lon1 lat2 lon2 : ℝ}
    (h1 : lat1 ≠ 0) (h2 : lon1 ≠ 0) (h3 : lat2 ≠ 0) (h4 : lon2 ≠ 0) :
    calculateDistance lat1 lon1 lat2 lon2 =
      some (toFixed1 (haversineMiles lat1 lon1 lat2 lon2)) := by
  unfold calculateDistance
  rw [if_neg]
  push_neg
  exact ⟨h1, h2, h3, h4⟩

theorem hotspotLE_distance_trans (dir : SortDirection) (loc : Location) :
    ∀ a b c : Hotspot, hotspotLE .distance dir loc a b = true →
      hotspotLE .distance dir loc b c = true →
      hotspotLE .distance dir loc a c = true := by
  intro a b c hab hbc
  cases dir with
  | asc =>
    simp only [hotspotLE, decide_eq_true_eq] at *
    exact le_trans hab hbc
  | desc =>
    simp only [hotspotLE, decide_eq_true_eq] at *
    exact le_trans hbc hab

theorem hotspotLE_distance_total (dir : SortDirection) (loc : Location) :
    ∀ a b : Hotspot,
      (hotspotLE .distance dir loc a b || hotspotLE .distance dir loc b a) = true := by
  intro a b
  cases dir <;>
    simp only [hotspotLE, Bool.or_eq_true, decide_eq_true_eq] <;>
    exact le_total _ _

/-- C3, amended: the distance sort does not compare unrounded distances;
it compares the toFixed(1) strings parsed back (with 9999 for unknown), so
its output is ordered by those rounded values - in both directions - and
agreement with the exact haversine order is only up to ties introduced by
the rounding, as the counterexample shows. -/
theorem C3_sorted_by_rounded (loc : Location) (minS : ℕ) (lim : Option ℕ)
    (hs : List Hotspot) :
    List.Pairwise
      (fun a b => hotspotDistanceValue loc a ≤ hotspotDistanceValue loc b)
      (applyFilters loc minS .distance .asc lim hs) ∧
    List.Pairwise
      (fun a b => hotspotDistanceValue loc b ≤ hotspotDistanceValue loc a)
      (applyFilters loc minS .distance .desc lim hs) := by
  constructor
  · unfold applyFilters
    split
    · exact List.Pairwise.nil
    · have h := @List.sorted_mergeSort Hotspot (hotspotLE .distance .asc loc)
        (hotspotLE_distance_trans .asc loc) (hotspotLE_distance_total .asc loc)
        (hs.filter (passesQualityFilter minS))
      have h' := h.imp (fun hab => by
        simpa only [hotspotLE, decide_eq_true_eq] using hab)
      cases lim with
      | none => exact h'
      | some n => exact List.Pairwise.sublist (List.take_sublist n _) h'
  · unfold applyFilters
    split
    · exact List.Pairwise.nil
    · have h := @List.sorted_mergeSort Hotspot (hotspotLE .distance .desc loc)
        (hotspotLE_distance_trans .desc loc) (hotspotLE_distance_total .desc loc)
        (hs.filter (passesQualityFilter minS))
      have h' := h.imp (fun hab => by
        simpa only [hotspotLE, decide_eq_true_eq] using hab)
      cases lim with
      | none => exact h'
      | some n => exact List.Pairwise.sublist (List.take_sublist n _) h'

/-- C3, counterexample: two hotspots 0.0691 and 0.0829 unrounded miles
north of the origin both round to 0.1 miles; fed to the ascending distance
sort with the farther one first, the comparator sees a tie and the stable
sort keeps the farther one first, so the order does not agree with the
exact haversine distances - the comparison used the rounded values. -/
theorem C3_counterexample :
    applyFilters distOrigin 0 .distance .asc none [hFar, hNear] = [hFar, hNear] ∧
    haversineMiles distOrigin.latitude distOrigin.longitude
        hNear.latitude hNear.longitude <
      haversineMiles distOrigin.latitude distOrigin.longitude
        hFar.latitude hFar.longitude := by
  have hπl := Real.pi_gt_d6
  have hπu := Real.pi_lt_d6
  have hmerNear : haversineMiles 40 10 40.001 10 =
      3958.8 * ((1 / 1000) * Real.pi / 180) := by
    rw [show (40.001 : ℝ) = 40 + 1 / 1000 by norm_num]
    exact haversineMiles_meridian 40 10 (1 / 1000) (by norm_num) (by norm_num)
  have hmerFar : haversineMiles 40 10 40.0012 10 =
      3958.8 * ((3 / 2500) * Real.pi / 180) := by
    rw [show (40.0012 : ℝ) = 40 + 3 / 2500 by norm_num]
    exact haversineMiles_meridian 40 10 (3 / 2500) (by norm_num) (by norm_num)
  have hr1 : round ((3958.8 : ℝ) * ((1 / 1000) * Real.pi / 180) * 10) = 1 := by
    rw [round_eq]
    apply Int.floor_eq_iff.mpr
    constructor
    · push_cast
      nlinarith
    · push_cast
      nlinarith
  have hr2 : round ((3958.8 : ℝ) * ((3 / 2500) * Real.pi / 180) * 10) = 1 := by
    rw [round_eq]
    apply Int.floor_eq_iff.mpr
    constructor
    · push_cast
      nlinarith
    · push_cast
      nlinarith
  have hvalNear : hotspotDistanceValue distOrigin hNear = 1 / 10 := by
    unfold hotspotDistanceValue distOrigin hNear
    dsimp only
    rw [calculateDistance_of_ne_zero (by norm_num) (by norm_num) (by norm_num)
      (by norm_num)]
    dsimp only
    rw [hmerNear]
    unfold toFixed1
    rw [hr1]
    norm_num
  have hvalFar : hotspotDistanceValue distOrigin hFar = 1 / 10 := by
    unfold hotspotDistanceValue distOrigin hFar
    dsimp only
    rw [calculateDistance_of_ne_zero (by norm_num) (by norm_num) (by norm_num)
      (by norm_num)]
    dsimp only
    rw [hmerFar]
    unfold toFixed1
    rw [hr2]
    norm_num
  constructor
  · unfold applyFilters
    rw [if_neg (by simp)]
    dsimp only
    have hfilter : [hFar, hNear].filter (passesQualityFilter 0) = [hFar, hNear] := by
      simp [passesQualityFilter]
    rw [hfilter, mergeSort_pair]
    rw [show hotspotLE .distance .asc distOrigin hFar hNear = true by
      unfold hotspotLE
      dsimp only
      apply decide_eq_true
      rw [hvalFar, hvalNear]]
    simp
  · show haversineMiles 40 10 (40.001 : ℝ) 10 < haversineMiles 40 10 (40.0012 : ℝ) 10
    rw [hmerNear, hmerFar]
    nlinarith [Real.pi_pos]

/-- C7, counterexample: the unknown distance is encoded as 9999 miles,
which is not maximal: a hotspot nearly antipodal to the origin is about
12299 miles away, so in ascending mode the unknown-distance hotspot sorts
before it instead of after it, even though its distance is computable. -/
theorem C7_counterexample :
    applyFilters southOrigin 0 .distance .asc none [hAntipodal, hZeroLat] =
      [hZeroLat, hAntipodal] ∧
    hotspotDistanceValue southOrigin hZeroLat = 9999 ∧
    9999 < hotspotDistanceValue southOrigin hAntipodal := by
  have hπl := Real.pi_gt_d6
  have hmer : haversineMiles (-89) 50 89 50 =
      3958.8 * (178 * Real.pi / 180) := by
    have h := haversineMiles_meridian (-89) 50 178 (by norm_num) (by norm_num)
    rw [show ((-89 : ℝ) + 178) = 89 by norm_num] at h
    exact h
  have hvalU : hotspotDistanceValue southOrigin hZeroLat = 9999 := by
    unfold hotspotDistanceValue southOrigin hZeroLat calculateDistance
    norm_num
  have hvalV : 9999 < hotspotDistanceValue southOrigin hAntipodal := by
    unfold hotspotDistanceValue southOrigin hAntipodal
    dsimp only
    rw [calculateDistance_of_ne_zero (by norm_num) (by norm_num) (by norm_num)
      (by norm_num)]
    dsimp only
    rw [hmer]
    unfold toFixed1
    have hlow := lt_round ((3958.8 : ℝ) * (178 * Real.pi / 180) * 10)
    rw [lt_div_iff₀ (by norm_num : (0 : ℝ) < 10)]
    nlinarith
  refine ⟨?_, hvalU, hvalV⟩
  unfold applyFilters
  rw [if_neg (by simp)]
  dsimp only
  have hfilter : [hAntipodal, hZeroLat].filter (passesQualityFilter 0) =
      [hAntipodal, hZeroLat] := by
    simp [passesQualityFilter]
  rw [hfilter, mergeSort_pair]
  rw [show hotspotLE .distance .asc southOrigin hAntipodal hZeroLat = false by
    unfold hotspotLE
    dsimp only
    apply decide_eq_false
    rw [hvalU]
    exact not_le.mpr hvalV]
  simp

/-- C7, amended: the unknown distance is treated as exactly 9999 miles, so
whenever the other hotspot's parsed distance is below 9999 the unknown one
is placed after it in ascending mode and before it in descending mode; a
farther-than-9999-miles hotspot breaks the "always at the far end" reading,
as the counterexample shows. -/
theorem C7_unknown_distance_position (loc : Location) (a b : Hotspot)
    (ha : calculateDistance loc.latitude loc.longitude a.latitude a.longitude = none)
    (hb : hotspotDistanceValue loc b < 9999) :
    applyFilters loc 0 .distance .asc none [a, b] = [b, a] ∧
    applyFilters loc 0 .distance .desc none [a, b] = [a, b] := by
  have hva : hotspotDistanceValue loc a = 9999 := by
    unfold hotspotDistanceValue
    rw [ha]
  have hfilter : [a, b].filter (passesQualityFilter 0) = [a, b] := by
    simp [passesQualityFilter]
  constructor
  · unfold applyFilters
    rw [if_neg (by simp)]
    dsimp only
    rw [hfilter, mergeSort_pair]
    rw [show hotspotLE .distance .asc loc a b = false by
      unfold hotspotLE
      dsimp only
      apply decide_eq_false
      rw [hva]
      exact not_le.mpr hb]
    simp
  · unfold applyFilters
    rw [if_neg (by simp)]
    dsimp only
    rw [hfilter, mergeSort_pair]
    rw [show hotspotLE .distance .desc loc a b = true by
      unfold hotspotLE
      dsimp only
      apply decide_eq_true
      rw [hva]
      exact hb.le]
    simp

/-- Witness for the amended C7: an unknown-distance hotspot against a
hotspot at the origin itself (distance 0.0). -/
theorem C7_unknown_distance_position_witness :
    applyFilters distOrigin 0 .distance .asc none [hZeroLat10, hSamePoint] =
      [hSamePoint, hZeroLat10] ∧
    applyFilters distOrigin 0 .distance .desc none [hZeroLat10, hSamePoint] =
      [hZeroLat10, hSamePoint] := by
  apply C7_unknown_distance_position
  · unfold distOrigin hZeroLat10 calculateDistance
    norm_num
  · unfold hotspotDistanceValue distOrigin hSamePoint
    dsimp only
    rw [calculateDistance_of_ne_zero (by norm_num) (by norm_num) (by norm_num)
      (by norm_num)]
    dsimp only
    have h := haversineMiles_meridian 40 10 0 (le_refl 0) (by norm_num)
    rw [add_zero] at h
    rw [h]
    unfold toFixed1
    norm_num

end Fledgling
